import Mathlib

/-!
Verification of the KickAI Judge CV service (`main.py`) against its
natural-language specification.

The service is a FastAPI application with four route handlers (`root`,
`health_check`, `process_video`, `analyze_frame`) and a `__main__` startup
block reading `CV_PORT`, `CV_HOST` and `ENV` from the environment.  Those are
embedded below directly from the source.  The specification additionally
describes a not-yet-built analysis core (StrikeEvent data model, Strike
Classifier, Result Aggregator); the parts of it that the claims need are
modelled from the spec, each marked `Modelled from the spec:` in its doc
comment.
-/

/-- JSON values as returned by the handlers: every response in `main.py` is a
dict whose values are strings or nested dicts of strings. -/
inductive Json where
  | str : String → Json
  | obj : List (String × Json) → Json

/-- Field lookup in a JSON object (`none` on a string or a missing key). -/
def Json.get : Json → String → Option Json
  | .str _, _ => none
  | .obj fields, k => fields.lookup k

/-- The keys of a JSON object, in order. -/
def Json.keys : Json → List String
  | .str _ => []
  | .obj fields => fields.map Prod.fst

/-- The process environment: a partial map from variable names to values,
as read by `os.getenv`. -/
def Env : Type := String → Option String

/-- An incoming HTTP request.  The handlers in `main.py` declare no
parameters, so FastAPI discards any path/body content before they run; the
embedding passes the request (and the environment) to each handler to be able
to state independence from them. -/
structure Request where
  path : String
  body : String
deriving DecidableEq, Repr

/-- Handler of `GET /` (`root` in `main.py`): the static service banner. -/
def root (_env : Env) (_r : Request) : Json :=
  Json.obj [
    ("service", Json.str "KickAI Judge Computer Vision"),
    ("version", Json.str "1.0.0"),
    ("status", Json.str "running"),
    ("endpoints", Json.obj [
      ("health", Json.str "/health"),
      ("process_video", Json.str "/api/v1/process-video"),
      ("analyze_frame", Json.str "/api/v1/analyze-frame")])]

/-- Handler of `GET /health` (`health_check` in `main.py`). -/
def health_check (_env : Env) (_r : Request) : Json :=
  Json.obj [
    ("status", Json.str "healthy"),
    ("service", Json.str "cv-service"),
    ("timestamp", Json.str "2024-01-01T00:00:00Z")]

/-- Handler of `POST /api/v1/process-video` (`process_video` in `main.py`):
the video-processing pipeline is a TODO, the handler returns a fixed
placeholder. -/
def process_video (_env : Env) (_r : Request) : Json :=
  Json.obj [
    ("message", Json.str "Video processing endpoint - to be implemented"),
    ("status", Json.str "not_implemented")]

/-- Handler of `POST /api/v1/analyze-frame` (`analyze_frame` in `main.py`):
frame analysis is a TODO, the handler returns a fixed placeholder. -/
def analyze_frame (_env : Env) (_r : Request) : Json :=
  Json.obj [
    ("message", Json.str "Frame analysis endpoint - to be implemented"),
    ("status", Json.str "not_implemented")]

/-- Python `ValueError`, the exception `int()` raises on a malformed
literal. -/
inductive PyError where
  | valueError : PyError
deriving DecidableEq, Repr

/-- The whitespace characters `int()` strips from both ends of its
argument. -/
def isPySpace (c : Char) : Bool :=
  c = ' ' || c = '\t' || c = '\n' || c = '\r' || c = '\x0b' || c = '\x0c'

/-- Drop leading Python whitespace. -/
def dropSpace : List Char → List Char
  | [] => []
  | c :: cs => if isPySpace c then dropSpace cs else c :: cs

/-- Strip Python whitespace from both ends. -/
def stripSpace (cs : List Char) : List Char :=
  (dropSpace (dropSpace cs).reverse).reverse

/-- Continue parsing a decimal literal after its first digit, with Python's
underscore rule: an underscore must sit between two digits. -/
def pyDigitsRest : List Char → Nat → Option Nat
  | [], acc => some acc
  | c :: cs, acc =>
    if c.isDigit then pyDigitsRest cs (acc * 10 + (c.toNat - 48))
    else if c = '_' then
      match cs with
      | [] => none
      | d :: _ => if d.isDigit then pyDigitsRest cs acc else none
    else none

/-- Parse a nonempty decimal digit string (underscores allowed between
digits), as Python `int()` does after sign and whitespace handling. -/
def pyDigits : List Char → Option Nat
  | [] => none
  | c :: cs => if c.isDigit then pyDigitsRest cs (c.toNat - 48) else none

/-- Python `int(s)` on a string: strip whitespace, optional sign, decimal
digits; raises `ValueError` otherwise. -/
def pyInt (s : String) : Except PyError Int :=
  match stripSpace s.data with
  | '+' :: rest =>
      match pyDigits rest with
      | some n => Except.ok (Int.ofNat n)
      | none => Except.error PyError.valueError
  | '-' :: rest =>
      match pyDigits rest with
      | some n => Except.ok (-(Int.ofNat n))
      | none => Except.error PyError.valueError
  | cs =>
      match pyDigits cs with
      | some n => Except.ok (Int.ofNat n)
      | none => Except.error PyError.valueError

/-- The configuration the `__main__` block hands to `uvicorn.run`. -/
structure ServerConfig where
  host : String
  port : Int
  reload : Bool
deriving DecidableEq, Repr

/-- `port = int(os.getenv("CV_PORT", 8000))`: the `os.getenv` default is the
integer `8000` (so `int()` is the identity on it); a set value is a string
that `int()` parses, raising `ValueError` on a malformed literal. -/
def portOf (env : Env) : Except PyError Int :=
  match env "CV_PORT" with
  | none => pure 8000
  | some s => pyInt s

/-- `host = os.getenv("CV_HOST", "0.0.0.0")`. -/
def hostOf (env : Env) : String :=
  (env "CV_HOST").getD "0.0.0.0"

/-- `reload=True if os.getenv("ENV") == "development" else False` (an unset
`ENV` gives `None`, which is not equal to `"development"`). -/
def reloadOf (env : Env) : Bool :=
  decide (env "ENV" = some "development")

/-- The `__main__` startup block of `main.py`: `port` from `CV_PORT`
(default `8000`, `int()` may raise, aborting startup), `host` from `CV_HOST`
(default `"0.0.0.0"`), auto-reload exactly when `ENV == "development"`. -/
def startup (env : Env) : Except PyError ServerConfig := do
  let port : Int ← portOf env
  pure { host := hostOf env, port := port, reload := reloadOf env }

/-- Modelled from the spec: the strike-type enumeration of the StrikeEvent
data model (section 3); no such type exists in `src/` yet. -/
inductive StrikeType where
  | PUNCH | KICK | KNEE | ELBOW | UNKNOWN
deriving DecidableEq, Repr

/-- The name of a strike type, for the aggregator's lexical tie-break. -/
def strikeTypeName : StrikeType → String
  | .PUNCH => "PUNCH"
  | .KICK => "KICK"
  | .KNEE => "KNEE"
  | .ELBOW => "ELBOW"
  | .UNKNOWN => "UNKNOWN"

/-- Modelled from the spec: a StrikeEvent (section 3), `{start_frame,
end_frame, strike_type, confidence}`; the float confidence is embedded as a
rational.  No producer of StrikeEvent exists in `src/` yet. -/
structure StrikeEvent where
  start_frame : Nat
  end_frame : Nat
  strike_type : StrikeType
  confidence : Rat
deriving DecidableEq, Repr

/-- Modelled from the spec: a PoseEstimate (section 3), `{frame_index,
person_id, keypoints}` with keypoints an ordered sequence of
`(x, y, confidence)`; floats embedded as rationals.  No pose-estimation code
exists in `src/` yet. -/
structure PoseEstimate where
  frame_index : Nat
  person_id : Nat
  keypoints : List (Rat × Rat × Rat)
deriving DecidableEq, Repr

/-- Modelled from the spec: an AnalysisReport (section 3), `{video_id,
ordered sequence of StrikeEvent, total_frames_processed}`.  No producer
exists in `src/` yet. -/
structure AnalysisReport where
  video_id : String
  events : List StrikeEvent
  total_frames_processed : Nat
deriving DecidableEq, Repr

/-- The lowest frame index appearing in a nonempty window of poses. -/
def windowLo (p : PoseEstimate) (ps : List PoseEstimate) : Nat :=
  ps.foldl (fun a q => Nat.min a q.frame_index) p.frame_index

/-- The highest frame index appearing in a nonempty window of poses. -/
def windowHi (p : PoseEstimate) (ps : List PoseEstimate) : Nat :=
  ps.foldl (fun a q => Nat.max a q.frame_index) p.frame_index

/-- Modelled from the spec: one evaluation step of the Strike Classifier
(section 4.3).  The classifier keeps a bounded window of recent PoseEstimate
and, on each new pose, evaluates the window against strike-pattern
heuristics, emitting zero or one StrikeEvent per call.  The heuristics,
thresholds and model are explicitly implementation-defined (section 9), so
they enter as the parameter `detect`; an emitted event is attributed to the
frame range spanned by the current window (for the frame-analysis endpoint
the window has size 1, section 6).  An empty window holds no frames to
attribute an event to, so nothing is emitted. -/
def strikeClassifierStep (detect : List PoseEstimate → Option (StrikeType × Rat))
    (window : List PoseEstimate) : Option StrikeEvent :=
  match detect window with
  | none => none
  | some (t, c) =>
    match window with
    | [] => none
    | p :: ps =>
      some { start_frame := windowLo p ps, end_frame := windowHi p ps,
             strike_type := t, confidence := c }

/-- Modelled from the spec: `AggregationError` (sections 4.4 and 7), the
internal-invariant error of the Result Aggregator.  No such code exists in
`src/` yet. -/
inductive AggregationError where
  | upstreamFailure : AggregationError
deriving DecidableEq, Repr

/-- Aggregator event order (section 4.4): start_frame ascending, ties broken
by strike_type lexical order. -/
def eventLE (a b : StrikeEvent) : Bool :=
  decide (a.start_frame < b.start_frame) ||
    (decide (a.start_frame = b.start_frame) &&
      decide (strikeTypeName a.strike_type ≤ strikeTypeName b.strike_type))

/-- Insert an event into an `eventLE`-sorted list. -/
def insertEvent (e : StrikeEvent) : List StrikeEvent → List StrikeEvent
  | [] => [e]
  | f :: fs => if eventLE e f then e :: f :: fs else f :: insertEvent e fs

/-- Sort events by `eventLE` (insertion sort). -/
def sortEvents : List StrikeEvent → List StrikeEvent
  | [] => []
  | e :: es => insertEvent e (sortEvents es)

/-- Modelled from the spec: the Result Aggregator (section 4.4).  Input is
the full stream of StrikeEvent plus the total frame count; output is an
AnalysisReport with events sorted by start_frame ascending, ties broken by
strike_type lexical order.  It fails with `AggregationError` only if the
input stream is empty where at least one frame was expected (an upstream
failure, not an empty video); `frames_expected` carries that expectation,
and the upload pipeline always expects at least one frame from a submitted
video (sections 4.4 and 8).  No such code exists in `src/` yet. -/
def aggregate (video_id : String) (events : List StrikeEvent)
    (total_frames frames_expected : Nat) : Except AggregationError AnalysisReport :=
  if events.isEmpty && decide (1 ≤ frames_expected) then
    Except.error AggregationError.upstreamFailure
  else
    Except.ok { video_id := video_id, events := sortEvents events,
                total_frames_processed := total_frames }

/-! ## Helper lemmas -/

/-- `startup` is `portOf` followed by assembling the configuration. -/
theorem startup_eq (env : Env) :
    startup env = (portOf env).map
      (fun p => { host := hostOf env, port := p, reload := reloadOf env }) := by
  unfold startup
  cases portOf env <;> rfl

/-- Folding `min` from a point below `b` stays below folding `max` from `b`
over the same window. -/
theorem foldl_min_le_foldl_max (ps : List PoseEstimate) (a b : Nat) (hab : a ≤ b) :
    ps.foldl (fun x q => Nat.min x q.frame_index) a ≤
      ps.foldl (fun x q => Nat.max x q.frame_index) b := by
  induction ps generalizing a b with
  | nil => exact hab
  | cons q qs ih =>
      exact ih _ _ (le_trans (Nat.min_le_left _ _) (le_trans hab (Nat.le_max_left _ _)))

/-- The lowest frame index of a window never exceeds the highest. -/
theorem windowLo_le_windowHi (p : PoseEstimate) (ps : List PoseEstimate) :
    windowLo p ps ≤ windowHi p ps :=
  foldl_min_le_foldl_max ps _ _ (Nat.le_refl _)

/-- A concrete empty environment. -/
def emptyEnv : Env := fun _ => none

/-- A concrete environment that only sets `ENV=development`. -/
def devEnv : Env := fun k => if k = "ENV" then some "development" else none

/-- A concrete environment that only sets `CV_PORT` to a malformed value. -/
def badPortEnv : Env := fun k => if k = "CV_PORT" then some "not-a-number" else none

/-- A concrete request. -/
def sampleRequest : Request := { path := "/", body := "payload-bytes" }

/-- A concrete detection heuristic that always fires. -/
def constDetect : List PoseEstimate → Option (StrikeType × Rat) :=
  fun _ => some (StrikeType.PUNCH, 1)

/-! ## Claims -/

/-- C1: for every request (and environment), the two placeholder endpoints
`process-video` and `analyze-frame` each return a response whose `status`
field equals `"not_implemented"`. -/
theorem placeholder_endpoints_not_implemented (env : Env) (r : Request) :
    (process_video env r).get "status" = some (Json.str "not_implemented") ∧
    (analyze_frame env r).get "status" = some (Json.str "not_implemented") :=
  ⟨rfl, rfl⟩

/-- C2 counterexample: at a concrete request, the `process-video` response
has no `video_id` field at all — it is the fixed placeholder object — so it
is not an AnalysisReport with fields `video_id`, events and
`total_frames_processed`. -/
theorem process_video_not_a_report :
    (process_video emptyEnv sampleRequest).get "video_id" = none ∧
    process_video emptyEnv sampleRequest = Json.obj [
      ("message", Json.str "Video processing endpoint - to be implemented"),
      ("status", Json.str "not_implemented")] :=
  ⟨rfl, rfl⟩

/-- C2 amended: the upload endpoint ignores any video payload and identifier
and returns the fixed placeholder object with exactly the fields `message`
and `status = "not_implemented"`; no AnalysisReport is returned. -/
theorem process_video_placeholder (env : Env) (r : Request) :
    process_video env r = Json.obj [
      ("message", Json.str "Video processing endpoint - to be implemented"),
      ("status", Json.str "not_implemented")] ∧
    (process_video env r).keys = ["message", "status"] :=
  ⟨rfl, rfl⟩

/-- C3 counterexample: at a concrete request, the `analyze-frame` response
is the fixed placeholder whose only keys are `message` and `status`, both
plain strings — it carries no PoseEstimate set and no StrikeEvent. -/
theorem analyze_frame_no_pose_data :
    analyze_frame emptyEnv sampleRequest = Json.obj [
      ("message", Json.str "Frame analysis endpoint - to be implemented"),
      ("status", Json.str "not_implemented")] ∧
    (analyze_frame emptyEnv sampleRequest).keys = ["message", "status"] :=
  ⟨rfl, rfl⟩

/-- C3 amended: the frame-analysis endpoint ignores the image payload and
returns the fixed placeholder object with exactly the fields `message` and
`status = "not_implemented"`; no PoseEstimate set or StrikeEvent is
returned. -/
theorem analyze_frame_placeholder (env : Env) (r : Request) :
    analyze_frame env r = Json.obj [
      ("message", Json.str "Frame analysis endpoint - to be implemented"),
      ("status", Json.str "not_implemented")] ∧
    (analyze_frame env r).keys = ["message", "status"] :=
  ⟨rfl, rfl⟩

/-- C4: the health endpoint returns one static response, the same for every
request and every environment, with `status = "healthy"`. -/
theorem health_check_static (env env2 : Env) (r r2 : Request) :
    health_check env r = Json.obj [
      ("status", Json.str "healthy"),
      ("service", Json.str "cv-service"),
      ("timestamp", Json.str "2024-01-01T00:00:00Z")] ∧
    health_check env r = health_check env2 r2 :=
  ⟨rfl, rfl⟩

/-- C5: two environments that agree on `CV_PORT` and `CV_HOST` (but may
differ on `ENV` and anything else) produce identical behaviour of all four
endpoints and an identical host/port configuration at startup; the
auto-reload flag is exactly the test `ENV == "development"`, so `ENV`
affects nothing but auto-reload. -/
theorem env_mode_noninterference (e1 e2 : Env) (r : Request)
    (hp : e1 "CV_PORT" = e2 "CV_PORT") (hh : e1 "CV_HOST" = e2 "CV_HOST") :
    root e1 r = root e2 r ∧
    health_check e1 r = health_check e2 r ∧
    process_video e1 r = process_video e2 r ∧
    analyze_frame e1 r = analyze_frame e2 r ∧
    (startup e1).map (fun c => (c.host, c.port)) =
      (startup e2).map (fun c => (c.host, c.port)) ∧
    (∀ c, startup e1 = Except.ok c → (c.reload = true ↔ e1 "ENV" = some "development")) := by
  have hport : portOf e1 = portOf e2 := by unfold portOf; rw [hp]
  have hhost : hostOf e1 = hostOf e2 := by unfold hostOf; rw [hh]
  refine ⟨rfl, rfl, rfl, rfl, ?_, ?_⟩
  · rw [startup_eq, startup_eq, hport, hhost]
    cases portOf e2 <;> rfl
  · intro c hc
    rw [startup_eq] at hc
    cases hpo : portOf e1 with
    | error err => rw [hpo] at hc; exact Except.noConfusion hc
    | ok p =>
        rw [hpo] at hc
        have hcfg := Except.ok.inj hc
        rw [← hcfg]
        simp [reloadOf]

/-- C5 witness: the concrete development environment and the empty
environment agree on `CV_PORT`/`CV_HOST` and yield the same host and port. -/
theorem env_mode_noninterference_witness :
    (startup devEnv).map (fun c => (c.host, c.port)) =
      (startup emptyEnv).map (fun c => (c.host, c.port)) :=
  (env_mode_noninterference devEnv emptyEnv sampleRequest rfl rfl).2.2.2.2.1

/-- C6: the analysis endpoints are deterministic functions of their input:
re-invoking them on the same (indeed, on any) request yields the identical
response. -/
theorem analysis_endpoints_deterministic (env : Env) (r r2 : Request) :
    process_video env r = process_video env r2 ∧
    analyze_frame env r = analyze_frame env r2 :=
  ⟨rfl, rfl⟩

/-- C7: every StrikeEvent the Strike Classifier emits satisfies
`start_frame ≤ end_frame`, for any detection heuristic and any window: the
event's frame range is the range spanned by the window, whose minimum never
exceeds its maximum. -/
theorem strikeEvent_frame_order
    (detect : List PoseEstimate → Option (StrikeType × Rat))
    (window : List PoseEstimate) (e : StrikeEvent)
    (h : strikeClassifierStep detect window = some e) :
    e.start_frame ≤ e.end_frame := by
  unfold strikeClassifierStep at h
  cases hd : detect window with
  | none => rw [hd] at h; exact Option.noConfusion h
  | some tc =>
      obtain ⟨t, c⟩ := tc
      rw [hd] at h
      cases window with
      | nil => exact Option.noConfusion h
      | cons p ps =>
          have he := Option.some.inj h
          rw [← he]
          exact windowLo_le_windowHi p ps

/-- C7 witness: a two-pose window (frames 3 and 5) with an always-firing
heuristic emits an event with `start_frame = 3 ≤ 5 = end_frame`. -/
theorem strikeEvent_frame_order_witness :
    ({ start_frame := 3, end_frame := 5, strike_type := StrikeType.PUNCH,
       confidence := 1 } : StrikeEvent).start_frame ≤
      ({ start_frame := 3, end_frame := 5, strike_type := StrikeType.PUNCH,
         confidence := 1 } : StrikeEvent).end_frame :=
  strikeEvent_frame_order constDetect
    [{ frame_index := 3, person_id := 0, keypoints := [] },
     { frame_index := 5, person_id := 0, keypoints := [] }]
    { start_frame := 3, end_frame := 5, strike_type := StrikeType.PUNCH,
      confidence := 1 } rfl

/-- C8: the Result Aggregator fails with `AggregationError` exactly when the
StrikeEvent stream is empty while at least one frame was expected; in
particular the empty/zero-frame input (no events, zero frames processed, at
least one frame expected of the submitted video) produces an
`AggregationError`. -/
theorem aggregate_error_iff (v : String) (es : List StrikeEvent) (tf fe : Nat) :
    (aggregate v es tf fe = Except.error AggregationError.upstreamFailure ↔
      es = [] ∧ 1 ≤ fe) ∧
    aggregate v [] 0 1 = Except.error AggregationError.upstreamFailure := by
  constructor
  · unfold aggregate
    cases es with
    | nil =>
        by_cases hfe : 1 ≤ fe <;> simp [List.isEmpty, hfe]
    | cons e es => simp [List.isEmpty]
  · rfl

/-- C8 witness: the aggregator at the concrete empty/zero-frame input. -/
theorem aggregate_error_iff_witness :
    aggregate "video-1" [] 0 1 = Except.error AggregationError.upstreamFailure :=
  (aggregate_error_iff "video-1" [] 0 1).1.mpr ⟨rfl, Nat.le_refl 1⟩

/-- C9: the `timestamp` field of every health response is the hardcoded
constant `"2024-01-01T00:00:00Z"`, whatever the request and environment (the
handler consults no clock), so it never reflects the current time. -/
theorem health_timestamp_hardcoded (env env2 : Env) (r r2 : Request) :
    (health_check env r).get "timestamp" =
      some (Json.str "2024-01-01T00:00:00Z") ∧
    (health_check env r).get "timestamp" = (health_check env2 r2).get "timestamp" :=
  ⟨rfl, rfl⟩

/-- C10: with `CV_PORT` unset, startup succeeds with port `8000`; with
`CV_HOST` unset, any successful startup uses host `"0.0.0.0"`; and if
`CV_PORT` is set to a string `int()` rejects, startup fails with
`ValueError`. -/
theorem startup_defaults_and_failure (env : Env) :
    (env "CV_PORT" = none →
      startup env = Except.ok
        { host := hostOf env, port := 8000, reload := reloadOf env }) ∧
    (env "CV_HOST" = none →
      ∀ c, startup env = Except.ok c → c.host = "0.0.0.0") ∧
    (∀ s, env "CV_PORT" = some s →
      pyInt s = Except.error PyError.valueError →
      startup env = Except.error PyError.valueError) := by
  refine ⟨?_, ?_, ?_⟩
  · intro h
    rw [startup_eq]
    unfold portOf
    rw [h]
    rfl
  · intro h c hc
    rw [startup_eq] at hc
    cases hpo : portOf env with
    | error err => rw [hpo] at hc; exact Except.noConfusion hc
    | ok p =>
        rw [hpo] at hc
        have hcfg := Except.ok.inj hc
        rw [← hcfg]
        show hostOf env = "0.0.0.0"
        unfold hostOf
        rw [h]
        rfl
  · intro s hs hpy
    have hpo : portOf env = Except.error PyError.valueError := by
      unfold portOf
      rw [hs]
      exact hpy
    rw [startup_eq, hpo]
    rfl

/-- C10 witness: the empty environment starts on `0.0.0.0:8000` with reload
off, and an environment with `CV_PORT=not-a-number` fails to start with
`ValueError`. -/
theorem startup_defaults_and_failure_witness :
    startup emptyEnv = Except.ok
      { host := hostOf emptyEnv, port := 8000, reload := reloadOf emptyEnv } ∧
    startup badPortEnv = Except.error PyError.valueError :=
  ⟨(startup_defaults_and_failure emptyEnv).1 rfl,
   (startup_defaults_and_failure badPortEnv).2.2 "not-a-number" rfl rfl⟩
